import Mathlib

/-!
Verification of the Tkinter layout-to-code generator (`src/backend/main.py`).

Strings of the generated Python script are modelled as lists of characters
(`Str`).  Python's `repr` of a `str` value (used by the source through the
`!r` format conversion) is modelled by `pyRepr`, and decoding of Python
string literals by `decodePyLiteral`.
-/

/-- Python strings are modelled as lists of characters. -/
abbrev Str := List Char

/-- The single-quote character. -/
def squote : Char := Char.ofNat 39

/-- The double-quote character. -/
def dquote : Char := Char.ofNat 34

/-- Lower-case hexadecimal digit for a value below 16 (as printed by
CPython's `%02x`-style formatting used in `repr` escapes). -/
def hexDigitChar (n : Nat) : Char :=
  if n < 10 then Char.ofNat (48 + n) else Char.ofNat (87 + n)

/-- Value of a hexadecimal digit character, as accepted when Python decodes
`\xhh`, `\uhhhh` and `\Uhhhhhhhh` escapes. -/
def hexVal (c : Char) : Option Nat :=
  if 48 ≤ c.toNat ∧ c.toNat ≤ 57 then some (c.toNat - 48)
  else if 97 ≤ c.toNat ∧ c.toNat ≤ 102 then some (c.toNat - 87)
  else if 65 ≤ c.toNat ∧ c.toNat ≤ 70 then some (c.toNat - 55)
  else none

/-- Big-endian fixed-width hexadecimal rendering of `n` (low `w` digits). -/
def toHex : Nat → Nat → Str
  | 0, _ => []
  | w + 1, n => hexDigitChar (n / 16 ^ w % 16) :: toHex w n

/-- Printability as used by CPython's `repr`.  CPython consults the Unicode
category table; the model is exact on the ASCII range (0x20–0x7E printable,
C0 controls and DEL not) and conservatively treats all non-ASCII characters
as non-printable, so they are rendered as hex escapes.  The round-trip
theorems below hold for either rendering, because a literal printable
character and its hex escape decode to the same character. -/
def isPrintableAscii (c : Char) : Bool :=
  32 ≤ c.toNat && c.toNat ≤ 126

/-- One character of `repr`'s output, given the chosen quote `q`
(CPython `unicode_repr`): quote and backslash are backslash-escaped, then
`\t`, `\n`, `\r`, then C0 controls and DEL as `\xhh`, printable characters
verbatim, and the rest as `\xhh`, `\uhhhh` or `\Uhhhhhhhh` by size. -/
def pyReprChar (q c : Char) : Str :=
  if c = q ∨ c = '\\' then ['\\', c]
  else if c = Char.ofNat 9 then ['\\', 't']
  else if c = Char.ofNat 10 then ['\\', 'n']
  else if c = Char.ofNat 13 then ['\\', 'r']
  else if c.toNat < 32 ∨ c.toNat = 127 then '\\' :: 'x' :: toHex 2 c.toNat
  else if isPrintableAscii c then [c]
  else if c.toNat ≤ 255 then '\\' :: 'x' :: toHex 2 c.toNat
  else if c.toNat ≤ 65535 then '\\' :: 'u' :: toHex 4 c.toNat
  else '\\' :: 'U' :: toHex 8 c.toNat

/-- Quote character chosen by `repr`: single quote, unless the string
contains a single quote and no double quote. -/
def pyQuote (s : Str) : Char :=
  if s.contains squote && !(s.contains dquote) then dquote else squote

/-- Body of `repr`'s output (everything between the quotes). -/
def pyReprBody (q : Char) : Str → Str
  | [] => []
  | c :: s => pyReprChar q c ++ pyReprBody q s

/-- Python `repr` of a string value, as produced by the `!r` conversion in
the source's f-strings. -/
def pyRepr (s : Str) : Str :=
  let q := pyQuote s
  q :: pyReprBody q s ++ [q]

/-- Single-character escapes of Python string literals. -/
def escChar (e : Char) : Option Char :=
  if e = '\\' then some '\\'
  else if e = squote then some squote
  else if e = dquote then some dquote
  else if e = 'n' then some (Char.ofNat 10)
  else if e = 'r' then some (Char.ofNat 13)
  else if e = 't' then some (Char.ofNat 9)
  else if e = 'a' then some (Char.ofNat 7)
  else if e = 'b' then some (Char.ofNat 8)
  else if e = 'f' then some (Char.ofNat 12)
  else if e = 'v' then some (Char.ofNat 11)
  else none

/-- Checked conversion of a code point to a character. -/
def charOf (n : Nat) : Option Char :=
  if n.isValidChar then some (Char.ofNat n) else none

/-- Decoding of the body of a Python string literal quoted with `q`.
Handles exactly the escape forms `repr` can produce (backslash escapes,
`\xhh`, `\uhhhh`, `\Uhhhhhhhh`); the remaining forms of Python's literal
syntax (octal escapes, `\N{...}`, line continuations) are never emitted by
`repr` and are conservatively rejected.  An unescaped quote character or a
malformed escape yields `none`. -/
def decodeBody (q : Char) : Str → Option Str
  | [] => some []
  | c :: s =>
    if c = '\\' then
      match s with
      | 'x' :: h1 :: h2 :: s' =>
        match hexVal h1, hexVal h2 with
        | some d1, some d2 =>
          match charOf (16 * d1 + d2) with
          | some ch => (decodeBody q s').map (ch :: ·)
          | none => none
        | _, _ => none
      | 'u' :: h1 :: h2 :: h3 :: h4 :: s' =>
        match hexVal h1, hexVal h2, hexVal h3, hexVal h4 with
        | some d1, some d2, some d3, some d4 =>
          match charOf (4096 * d1 + 256 * d2 + 16 * d3 + d4) with
          | some ch => (decodeBody q s').map (ch :: ·)
          | none => none
        | _, _, _, _ => none
      | 'U' :: h1 :: h2 :: h3 :: h4 :: h5 :: h6 :: h7 :: h8 :: s' =>
        match hexVal h1, hexVal h2, hexVal h3, hexVal h4,
              hexVal h5, hexVal h6, hexVal h7, hexVal h8 with
        | some d1, some d2, some d3, some d4, some d5, some d6, some d7, some d8 =>
          match charOf (268435456 * d1 + 16777216 * d2 + 1048576 * d3 + 65536 * d4 +
                        4096 * d5 + 256 * d6 + 16 * d7 + d8) with
          | some ch => (decodeBody q s').map (ch :: ·)
          | none => none
        | _, _, _, _, _, _, _, _ => none
      | e :: s' =>
        match escChar e with
        | some ch => (decodeBody q s').map (ch :: ·)
        | none => none
      | [] => none
    else if c = q then none
    else (decodeBody q s).map (c :: ·)

/-- Decoding of a complete Python string literal: a quote character, a body,
and the matching closing quote. -/
def decodePyLiteral (s : Str) : Option Str :=
  match s with
  | [] => none
  | q :: rest =>
    if (q = squote ∨ q = dquote) ∧ rest.getLast? = some q then
      decodeBody q rest.dropLast
    else none

/-! ## Data model (`Widget`, `Layout` pydantic models) -/

/-- A validated widget (the pydantic `Widget` model): `id`, `type`, integer
geometry, and an optional `text`. -/
structure Widget where
  id : Str
  type : Str
  x : Int
  y : Int
  width : Int
  height : Int
  text : Option Str
deriving DecidableEq

/-- The validated layout (the pydantic `Layout` model). -/
structure Layout where
  widgets : List Widget
deriving DecidableEq

/-- The five supported widget types (the `supported` set in
`Widget.validate_type`). -/
def supportedTypes : List Str :=
  [("Button").toList, ("Label").toList, ("Entry").toList, ("Frame").toList, ("Menu").toList]

/-- A raw input widget before validation: every field may be absent
(pydantic reports absent required fields; `text` is optional and `None`
both when absent and when explicitly null). -/
structure RawWidget where
  id : Option Str
  type : Option Str
  x : Option Int
  y : Option Int
  width : Option Int
  height : Option Int
  text : Option Str
deriving DecidableEq

/-- Raw layout input (the request body). -/
structure RawLayout where
  widgets : List RawWidget
deriving DecidableEq

/-- The error message raised by `Widget.validate_type` for an unsupported
type value (`f"Unsupported widget type: {v}"`). -/
def unsupportedTypeMsg (t : Str) : Str :=
  ("Unsupported widget type: ").toList ++ t

/-- Validation of one raw widget: all required fields must be present and
the `type` must be supported.  Returns the validated widget or nothing. -/
def validateWidget (rw : RawWidget) : Option Widget :=
  match rw.id, rw.type, rw.x, rw.y, rw.width, rw.height with
  | some i, some t, some x, some y, some w, some h =>
    if t ∈ supportedTypes then some ⟨i, t, x, y, w, h, rw.text⟩ else none
  | _, _, _, _, _, _ => none

/-- The validation errors reported for one raw widget, in field order:
a missing-field error for each absent required field, and the
`validate_type` error when the `type` value is unsupported (pydantic
collects the per-field errors of a model rather than stopping at the
first). -/
def widgetErrors (rw : RawWidget) : List Str :=
  (match rw.id with | none => [("id: field required").toList] | some _ => []) ++
  (match rw.type with
   | none => [("type: field required").toList]
   | some t => if t ∈ supportedTypes then [] else [unsupportedTypeMsg t]) ++
  (match rw.x with | none => [("x: field required").toList] | some _ => []) ++
  (match rw.y with | none => [("y: field required").toList] | some _ => []) ++
  (match rw.width with | none => [("width: field required").toList] | some _ => []) ++
  (match rw.height with | none => [("height: field required").toList] | some _ => [])

/-- All validation errors of a raw layout, in widget order. -/
def layoutErrors (rl : RawLayout) : List Str :=
  (rl.widgets.map widgetErrors).flatten

/-! ## Code emitter (`generate_tkinter_code`) -/

/-- Decimal rendering of an integer, as Python's `str` of an `int`. -/
def intToStr (n : Int) : Str := (toString n).toList

/-- `", ".join(options)`. -/
def joinComma : List Str → Str
  | [] => []
  | [s] => s
  | s :: rest => s ++ (", ").toList ++ joinComma rest

/-- `"\n".join(lines)`. -/
def joinLines : List Str → Str
  | [] => []
  | [l] => l
  | l :: ls => l ++ '\n' :: joinLines ls

/-- `max(...)` of the right edges `x + width`, 0 for an empty layout
(`max(...) if layout.widgets else 0`). -/
def listMax : List Int → Int
  | [] => 0
  | x :: xs => xs.foldl max x

def max_right (ws : List Widget) : Int :=
  if ws.isEmpty then 0 else listMax (ws.map fun w => w.x + w.width)

def max_bottom (ws : List Widget) : Int :=
  if ws.isEmpty then 0 else listMax (ws.map fun w => w.y + w.height)

/-- Python's built-in `max` on a list of ints: fails on an empty sequence. -/
def pyMax (l : List Int) : Except Str Int :=
  match l with
  | [] => Except.error (("max() arg is an empty sequence").toList)
  | x :: xs => Except.ok (xs.foldl max x)

/-- The constructor options of one widget: always `root`; additionally
`text={widget.text!r}` when text is present and the type is Button or
Label (for Entry the text is inserted after construction instead). -/
def widgetOptions (w : Widget) : List Str :=
  match w.text with
  | some t =>
    if w.type = ("Button").toList ∨ w.type = ("Label").toList ∨ w.type = ("Entry").toList then
      if w.type = ("Entry").toList then [("root").toList]
      else [("root").toList, ("text=").toList ++ pyRepr t]
    else [("root").toList]
  | none => [("root").toList]

/-- `f"{var_name} = {constructor}({opts})"` with `constructor = f"tk.{wtype}"`. -/
def constructionLine (w : Widget) : Str :=
  w.id ++ (" = tk.").toList ++ w.type ++ ['('] ++ joinComma (widgetOptions w) ++ [')']

/-- The post-construction insertion statement for an Entry with text
(`f"{var_name}.insert(0, {widget.text!r})"`), absent otherwise. -/
def insertLines (w : Widget) : List Str :=
  if w.type = ("Entry").toList then
    match w.text with
    | some t => [w.id ++ (".insert(0, ").toList ++ pyRepr t ++ [')']]
    | none => []
  else []

/-- The placement statement
(`f"{var_name}.place(x={x}, y={y}, width={width}, height={height})"`). -/
def placeLine (w : Widget) : Str :=
  w.id ++ (".place(x=").toList ++ intToStr w.x ++ (", y=").toList ++ intToStr w.y ++
    (", width=").toList ++ intToStr w.width ++ (", height=").toList ++ intToStr w.height ++ [')']

/-- The block of lines appended for one widget: construction, optional
Entry insertion, placement, blank separator. -/
def widgetLines (w : Widget) : List Str :=
  [constructionLine w] ++ insertLines w ++ [placeLine w, []]

/-- `root.title('Generated GUI')` (built from characters so the apostrophes
of the Python source line are explicit). -/
def titleLine : Str :=
  ("root.title(").toList ++ [squote] ++ ("Generated GUI").toList ++ [squote, ')']

/-- `f"root.geometry('{max_right}x{max_bottom}')"`. -/
def geometryLine (mr mb : Int) : Str :=
  ("root.geometry(").toList ++ [squote] ++ intToStr mr ++ ['x'] ++ intToStr mb ++ [squote, ')']

/-- All emitted lines, given the two geometry bounds: fixed preamble,
geometry statement, one block per widget in input order, and the trailing
mainloop statement. -/
def scriptLines (ws : List Widget) (mr mb : Int) : List Str :=
  [("import tkinter as tk").toList, [], ("root = tk.Tk()").toList, titleLine,
   geometryLine mr mb, []] ++
  (ws.map widgetLines).flatten ++
  [("root.mainloop()").toList]

/-- The emitted lines of `generate_tkinter_code`. -/
def emitLines (layout : Layout) : List Str :=
  scriptLines layout.widgets (max_right layout.widgets) (max_bottom layout.widgets)

/-- `generate_tkinter_code`: the full generated script,
`"\n".join(lines)`. -/
def generate_tkinter_code (layout : Layout) : Str :=
  joinLines (emitLines layout)

/-- `generate_tkinter_code` with Python's fallible `max` made explicit:
the guarded calls `max(...) if layout.widgets else 0` are the only
operations of the emitter that can raise. -/
def generate_tkinter_codeE (layout : Layout) : Except Str Str := do
  let mr ← if layout.widgets.isEmpty then pure 0
           else pyMax (layout.widgets.map fun w => w.x + w.width)
  let mb ← if layout.widgets.isEmpty then pure 0
           else pyMax (layout.widgets.map fun w => w.y + w.height)
  pure (joinLines (scriptLines layout.widgets mr mb))

/-- Validation of the whole widget list: every widget must validate. -/
def validateAll : List RawWidget → Option (List Widget)
  | [] => some []
  | rw :: rest =>
    match validateWidget rw, validateAll rest with
    | some w, some ws => some (w :: ws)
    | _, _ => none

/-- The `/generate_code` endpoint: validate the raw layout (pydantic
parses the body into `Layout` before the handler runs, answering with the
collected validation errors on failure), then emit; an exception from the
emitter would surface as an error as well (`try ... except`). -/
def generate_code (rl : RawLayout) : Except Str Str :=
  match validateAll rl.widgets with
  | some ws => generate_tkinter_codeE ⟨ws⟩
  | none => Except.error (joinLines (layoutErrors rl))

/-- Everything up to the first newline of a string. -/
def firstLine (s : Str) : Str := s.takeWhile (· != '\n')

/-- Everything after the last newline of a string. -/
def lastLine (s : Str) : Str := (s.reverse.takeWhile (· != '\n')).reverse

/-- Concrete Button widget used by witnesses. -/
def wButton : Widget :=
  ⟨("w1").toList, ("Button").toList, 10, 20, 100, 30, some (("Click me").toList)⟩

/-- Concrete Entry widget used by witnesses. -/
def wEntry : Widget :=
  ⟨("e1").toList, ("Entry").toList, 5, 6, 70, 25, some (("abc").toList)⟩

/-- A raw widget with an unsupported type, used by witnesses. -/
def rwBad : RawWidget :=
  ⟨some (("a").toList), some (("Checkbox").toList), some 1, some 2, some 3, some 4, none⟩

/-- A raw layout containing `rwBad`. -/
def rlBad : RawLayout := ⟨[rwBad]⟩

/-- A raw layout in which two well-formed widgets share the id `w1`. -/
def rlDup : RawLayout :=
  ⟨[⟨some (("w1").toList), some (("Button").toList), some 0, some 0, some 10, some 10, none⟩,
    ⟨some (("w1").toList), some (("Label").toList), some 5, some 5, some 20, some 20, none⟩]⟩

lemma hexVal_hexDigitChar (n : Nat) (h : n < 16) : hexVal (hexDigitChar n) = some n := by
  interval_cases n <;> decide

lemma charOf_toNat (c : Char) : charOf c.toNat = some c := by
  have h : c.toNat.isValidChar := c.valid
  simp [charOf, h, Char.ofNat_toNat]

lemma decodeBody_plain (q c : Char) (s : Str) (h1 : ¬ c = '\\') (h2 : ¬ c = q) :
    decodeBody q (c :: s) = (decodeBody q s).map (c :: ·) := by
  rw [decodeBody.eq_def]
  simp only [if_neg h1, if_neg h2]

lemma decodeBody_hex2 (q h1 h2 : Char) (s : Str) :
    decodeBody q ('\\' :: 'x' :: h1 :: h2 :: s) =
      match hexVal h1, hexVal h2 with
      | some d1, some d2 =>
        match charOf (16 * d1 + d2) with
        | some ch => (decodeBody q s).map (ch :: ·)
        | none => none
      | _, _ => none := rfl

lemma decodeBody_hex4 (q h1 h2 h3 h4 : Char) (s : Str) :
    decodeBody q ('\\' :: 'u' :: h1 :: h2 :: h3 :: h4 :: s) =
      match hexVal h1, hexVal h2, hexVal h3, hexVal h4 with
      | some d1, some d2, some d3, some d4 =>
        match charOf (4096 * d1 + 256 * d2 + 16 * d3 + d4) with
        | some ch => (decodeBody q s).map (ch :: ·)
        | none => none
      | _, _, _, _ => none := rfl

lemma decodeBody_hex8 (q h1 h2 h3 h4 h5 h6 h7 h8 : Char) (s : Str) :
    decodeBody q ('\\' :: 'U' :: h1 :: h2 :: h3 :: h4 :: h5 :: h6 :: h7 :: h8 :: s) =
      match hexVal h1, hexVal h2, hexVal h3, hexVal h4,
            hexVal h5, hexVal h6, hexVal h7, hexVal h8 with
      | some d1, some d2, some d3, some d4, some d5, some d6, some d7, some d8 =>
        match charOf (268435456 * d1 + 16777216 * d2 + 1048576 * d3 + 65536 * d4 +
                      4096 * d5 + 256 * d6 + 16 * d7 + d8) with
        | some ch => (decodeBody q s).map (ch :: ·)
        | none => none
      | _, _, _, _, _, _, _, _ => none := rfl

lemma char_toNat_lt (c : Char) : c.toNat < 1114112 := by
  have hv : c.toNat.isValidChar := c.valid
  rcases hv with h | h <;> omega

lemma toHex_two (n : Nat) :
    toHex 2 n = [hexDigitChar (n / 16 % 16), hexDigitChar (n % 16)] := by
  norm_num [toHex]

lemma toHex_four (n : Nat) :
    toHex 4 n = [hexDigitChar (n / 4096 % 16), hexDigitChar (n / 256 % 16),
                 hexDigitChar (n / 16 % 16), hexDigitChar (n % 16)] := by
  norm_num [toHex]

lemma toHex_eight (n : Nat) :
    toHex 8 n = [hexDigitChar (n / 268435456 % 16), hexDigitChar (n / 16777216 % 16),
                 hexDigitChar (n / 1048576 % 16), hexDigitChar (n / 65536 % 16),
                 hexDigitChar (n / 4096 % 16), hexDigitChar (n / 256 % 16),
                 hexDigitChar (n / 16 % 16), hexDigitChar (n % 16)] := by
  norm_num [toHex]

/-- Decoding undoes the escaping of a single character: `repr`'s rendering
of `c` followed by any tail decodes to `c` consed onto the decoded tail. -/
lemma decodeBody_pyReprChar (q c : Char) (s : Str) (hq : q = squote ∨ q = dquote) :
    decodeBody q (pyReprChar q c ++ s) = (decodeBody q s).map (c :: ·) := by
  unfold pyReprChar
  by_cases hqc : c = q ∨ c = '\\'
  · rw [if_pos hqc]
    rcases hqc with h | h
    · subst h; rcases hq with h | h <;> subst h <;> rfl
    · subst h; rfl
  · rw [if_neg hqc]
    push_neg at hqc
    by_cases ht : c = Char.ofNat 9
    · rw [if_pos ht]; subst ht; rfl
    rw [if_neg ht]
    by_cases hn : c = Char.ofNat 10
    · rw [if_pos hn]; subst hn; rfl
    rw [if_neg hn]
    by_cases hr : c = Char.ofNat 13
    · rw [if_pos hr]; subst hr; rfl
    rw [if_neg hr]
    by_cases hc0 : c.toNat < 32 ∨ c.toNat = 127
    · rw [if_pos hc0]
      have hlt : c.toNat < 256 := by rcases hc0 with h | h <;> omega
      rw [toHex_two]
      show decodeBody q ('\\' :: 'x' :: hexDigitChar (c.toNat / 16 % 16)
            :: hexDigitChar (c.toNat % 16) :: s) = _
      rw [decodeBody_hex2, hexVal_hexDigitChar _ (Nat.mod_lt _ (by norm_num)),
          hexVal_hexDigitChar _ (Nat.mod_lt _ (by norm_num))]
      have harith : 16 * (c.toNat / 16 % 16) + c.toNat % 16 = c.toNat := by omega
      simp only [harith, charOf_toNat]
    rw [if_neg hc0]
    by_cases hp : isPrintableAscii c = true
    · rw [if_pos hp]
      show decodeBody q (c :: s) = _
      exact decodeBody_plain q c s hqc.2 hqc.1
    rw [if_neg hp]
    by_cases h255 : c.toNat ≤ 255
    · rw [if_pos h255]
      rw [toHex_two]
      show decodeBody q ('\\' :: 'x' :: hexDigitChar (c.toNat / 16 % 16)
            :: hexDigitChar (c.toNat % 16) :: s) = _
      rw [decodeBody_hex2, hexVal_hexDigitChar _ (Nat.mod_lt _ (by norm_num)),
          hexVal_hexDigitChar _ (Nat.mod_lt _ (by norm_num))]
      have harith : 16 * (c.toNat / 16 % 16) + c.toNat % 16 = c.toNat := by omega
      simp only [harith, charOf_toNat]
    rw [if_neg h255]
    by_cases h64 : c.toNat ≤ 65535
    · rw [if_pos h64]
      rw [toHex_four]
      show decodeBody q ('\\' :: 'u' :: hexDigitChar (c.toNat / 4096 % 16)
            :: hexDigitChar (c.toNat / 256 % 16) :: hexDigitChar (c.toNat / 16 % 16)
            :: hexDigitChar (c.toNat % 16) :: s) = _
      rw [decodeBody_hex4, hexVal_hexDigitChar _ (Nat.mod_lt _ (by norm_num)),
          hexVal_hexDigitChar _ (Nat.mod_lt _ (by norm_num)),
          hexVal_hexDigitChar _ (Nat.mod_lt _ (by norm_num)),
          hexVal_hexDigitChar _ (Nat.mod_lt _ (by norm_num))]
      have harith : 4096 * (c.toNat / 4096 % 16) + 256 * (c.toNat / 256 % 16) +
          16 * (c.toNat / 16 % 16) + c.toNat % 16 = c.toNat := by omega
      simp only [harith, charOf_toNat]
    rw [if_neg h64]
    have hbig : c.toNat < 4294967296 := by have := char_toNat_lt c; omega
    rw [toHex_eight]
    show decodeBody q ('\\' :: 'U' :: hexDigitChar (c.toNat / 268435456 % 16)
          :: hexDigitChar (c.toNat / 16777216 % 16) :: hexDigitChar (c.toNat / 1048576 % 16)
          :: hexDigitChar (c.toNat / 65536 % 16) :: hexDigitChar (c.toNat / 4096 % 16)
          :: hexDigitChar (c.toNat / 256 % 16) :: hexDigitChar (c.toNat / 16 % 16)
          :: hexDigitChar (c.toNat % 16) :: s) = _
    rw [decodeBody_hex8, hexVal_hexDigitChar _ (Nat.mod_lt _ (by norm_num)),
        hexVal_hexDigitChar _ (Nat.mod_lt _ (by norm_num)),
        hexVal_hexDigitChar _ (Nat.mod_lt _ (by norm_num)),
        hexVal_hexDigitChar _ (Nat.mod_lt _ (by norm_num)),
        hexVal_hexDigitChar _ (Nat.mod_lt _ (by norm_num)),
        hexVal_hexDigitChar _ (Nat.mod_lt _ (by norm_num)),
        hexVal_hexDigitChar _ (Nat.mod_lt _ (by norm_num)),
        hexVal_hexDigitChar _ (Nat.mod_lt _ (by norm_num))]
    have harith : 268435456 * (c.toNat / 268435456 % 16) + 16777216 * (c.toNat / 16777216 % 16) +
        1048576 * (c.toNat / 1048576 % 16) + 65536 * (c.toNat / 65536 % 16) +
        4096 * (c.toNat / 4096 % 16) + 256 * (c.toNat / 256 % 16) +
        16 * (c.toNat / 16 % 16) + c.toNat % 16 = c.toNat := by omega
    simp only [harith, charOf_toNat]

lemma decodeBody_pyReprBody (q : Char) (hq : q = squote ∨ q = dquote) (s : Str) :
    decodeBody q (pyReprBody q s) = some s := by
  induction s with
  | nil => rfl
  | cons c s ih =>
    have hb : pyReprBody q (c :: s) = pyReprChar q c ++ pyReprBody q s := rfl
    rw [hb, decodeBody_pyReprChar q c _ hq, ih]
    rfl

lemma pyQuote_cases (s : Str) : pyQuote s = squote ∨ pyQuote s = dquote := by
  unfold pyQuote; split <;> simp

/-- Decoding a `repr`-rendered string literal recovers the original string. -/
lemma decode_pyRepr (s : Str) : decodePyLiteral (pyRepr s) = some s := by
  have hq := pyQuote_cases s
  have hrepr : pyRepr s = pyQuote s :: (pyReprBody (pyQuote s) s ++ [pyQuote s]) := rfl
  rw [hrepr]
  simp only [decodePyLiteral]
  rw [List.getLast?_concat, List.dropLast_concat]
  rw [if_pos ⟨hq, rfl⟩]
  exact decodeBody_pyReprBody _ hq s

/-! ## Helper lemmas -/

lemma le_foldl_max (a : Int) (l : List Int) : a ≤ l.foldl max a := by
  induction l generalizing a with
  | nil => exact le_refl a
  | cons x xs ih => exact le_trans (le_max_left a x) (ih (max a x))

lemma mem_le_foldl_max (a : Int) {y : Int} {l : List Int} (h : y ∈ l) :
    y ≤ l.foldl max a := by
  induction l generalizing a with
  | nil => cases h
  | cons x xs ih =>
    rcases List.mem_cons.mp h with rfl | hm
    · exact le_trans (le_max_right a y) (le_foldl_max _ xs)
    · exact ih _ hm

lemma foldl_max_mem (a : Int) (l : List Int) : l.foldl max a = a ∨ l.foldl max a ∈ l := by
  induction l generalizing a with
  | nil => exact Or.inl rfl
  | cons x xs ih =>
    rcases ih (max a x) with h | h
    · rcases max_choice a x with hm | hm
      · exact Or.inl (by rw [List.foldl_cons, h, hm])
      · exact Or.inr (by rw [List.foldl_cons, h, hm]; exact List.mem_cons_self x xs)
    · exact Or.inr (List.mem_cons_of_mem x h)

lemma listMax_mem {l : List Int} (h : l ≠ []) : listMax l ∈ l := by
  cases l with
  | nil => exact absurd rfl h
  | cons x xs =>
    rcases foldl_max_mem x xs with hm | hm
    · rw [listMax, hm]; exact List.mem_cons_self x xs
    · exact List.mem_cons_of_mem x hm

lemma le_listMax {y : Int} {l : List Int} (h : y ∈ l) : y ≤ listMax l := by
  cases l with
  | nil => cases h
  | cons x xs =>
    rcases List.mem_cons.mp h with rfl | hm
    · exact le_foldl_max y xs
    · exact mem_le_foldl_max x hm

lemma listMax_perm {l l' : List Int} (hp : l.Perm l') (h : l ≠ []) :
    listMax l = listMax l' := by
  have h' : l' ≠ [] := by
    intro hc; subst hc; exact h (List.Perm.eq_nil hp)
  exact le_antisymm
    (le_listMax (hp.mem_iff.mp (listMax_mem h)))
    (le_listMax (hp.mem_iff.mpr (listMax_mem h')))

lemma joinLines_cons (l : Str) (ls : List Str) (h : ls ≠ []) :
    joinLines (l :: ls) = l ++ '\n' :: joinLines ls := by
  cases ls with
  | nil => exact absurd rfl h
  | cons a as => rfl

lemma joinLines_concat (ls : List Str) (z : Str) (h : ls ≠ []) :
    joinLines (ls ++ [z]) = joinLines ls ++ '\n' :: z := by
  induction ls with
  | nil => exact absurd rfl h
  | cons l ls ih =>
    cases ls with
    | nil => rfl
    | cons m ms =>
      rw [List.cons_append, joinLines_cons l ((m :: ms) ++ [z]) (by simp),
          joinLines_cons l (m :: ms) (by simp), ih (by simp)]
      simp [List.append_assoc]

lemma takeWhile_append_nl (l r : Str) (h : ∀ c ∈ l, c ≠ '\n') :
    (l ++ '\n' :: r).takeWhile (· != '\n') = l := by
  induction l with
  | nil => simp [List.takeWhile]
  | cons c cs ih =>
    have hc : (c != '\n') = true := by
      simpa using h c (List.mem_cons_self c cs)
    simp only [List.cons_append, List.takeWhile_cons, hc, if_true]
    rw [ih (fun d hd => h d (List.mem_cons_of_mem c hd))]

lemma mem_joinLines_infix {s : Str} {ls : List Str} (h : s ∈ ls) :
    ∃ u v, u ++ s ++ v = joinLines ls := by
  induction ls with
  | nil => cases h
  | cons l rest ih =>
    rcases List.mem_cons.mp h with rfl | hm
    · cases rest with
      | nil => exact ⟨[], [], by simp [joinLines]⟩
      | cons m ms =>
        exact ⟨[], '\n' :: joinLines (m :: ms), by rw [joinLines_cons s _ (by simp)]; simp⟩
    · have hrest : rest ≠ [] := by intro hc; subst hc; cases hm
      obtain ⟨u, v, huv⟩ := ih hm
      exact ⟨l ++ ['\n'] ++ u, v, by rw [joinLines_cons l rest hrest, ← huv]; simp⟩

lemma validateAll_eq_none {rw : RawWidget} {l : List RawWidget}
    (hmem : rw ∈ l) (hnone : validateWidget rw = none) :
    validateAll l = none := by
  induction l with
  | nil => cases hmem
  | cons a as ih =>
    rcases List.mem_cons.mp hmem with rfl | hm
    · simp [validateAll, hnone]
    · cases ha : validateWidget a with
      | none => simp [validateAll, ha]
      | some w => simp [validateAll, ha, ih hm]

lemma validateAll_isSome {l : List RawWidget}
    (h : ∀ rw ∈ l, (validateWidget rw).isSome) :
    ∃ ws, validateAll l = some ws := by
  induction l with
  | nil => exact ⟨[], rfl⟩
  | cons a as ih =>
    obtain ⟨w, hw⟩ := Option.isSome_iff_exists.mp (h a (List.mem_cons_self a as))
    obtain ⟨ws, hws⟩ := ih (fun rw hrw => h rw (List.mem_cons_of_mem a hrw))
    exact ⟨w :: ws, by simp [validateAll, hw, hws]⟩

lemma pyMax_ok {l : List Int} (h : l ≠ []) : pyMax l = Except.ok (listMax l) := by
  cases l with
  | nil => exact absurd rfl h
  | cons x xs => rfl

/-- The fallible emitter always succeeds and agrees with the pure one. -/
lemma generate_tkinter_codeE_eq (layout : Layout) :
    generate_tkinter_codeE layout = Except.ok (generate_tkinter_code layout) := by
  cases hws : layout.widgets with
  | nil =>
    simp only [generate_tkinter_codeE, generate_tkinter_code, emitLines, max_right, max_bottom,
      hws, List.isEmpty_nil, if_true]
    rfl
  | cons w ws =>
    have h1 : (layout.widgets.map fun w => w.x + w.width) ≠ [] := by simp [hws]
    have h2 : (layout.widgets.map fun w => w.y + w.height) ≠ [] := by simp [hws]
    rw [generate_tkinter_codeE]
    rw [show layout.widgets.isEmpty = false by simp [hws]]
    simp only [Bool.false_eq_true, if_false, pyMax_ok h1, pyMax_ok h2]
    simp only [generate_tkinter_code, emitLines, max_right, max_bottom, hws,
      List.isEmpty_cons, Bool.false_eq_true, if_false]
    rfl

lemma root_ne_textopt (lit : Str) : ("root").toList ≠ ("text=").toList ++ lit := by
  intro h
  have h2 := congrArg List.head? h
  rw [show (("root").toList.head? = some 'r') from rfl] at h2
  rw [show ((("text=").toList ++ lit).head? = some 't') from rfl] at h2
  exact absurd h2 (by decide)

lemma widgetOptions_entry (w : Widget) (h : w.type = ("Entry").toList) :
    widgetOptions w = [("root").toList] := by
  cases htext : w.text with
  | none => unfold widgetOptions; rw [htext]
  | some t => unfold widgetOptions; rw [htext, h]; rfl

lemma widgetOptions_no_text (w : Widget) (h : w.text = none) :
    widgetOptions w = [("root").toList] := by
  unfold widgetOptions; rw [h]

lemma widgetOptions_other (w : Widget) (t : Str) (htext : w.text = some t)
    (h1 : ¬ w.type = ("Button").toList) (h2 : ¬ w.type = ("Label").toList)
    (h3 : ¬ w.type = ("Entry").toList) :
    widgetOptions w = [("root").toList] := by
  unfold widgetOptions
  rw [htext]
  show (if w.type = ("Button").toList ∨ w.type = ("Label").toList ∨ w.type = ("Entry").toList
        then (if w.type = ("Entry").toList then [("root").toList]
              else [("root").toList, ("text=").toList ++ pyRepr t])
        else [("root").toList]) = [("root").toList]
  rw [if_neg (by push_neg; exact ⟨h1, h2, h3⟩)]

lemma widgetOptions_text (w : Widget) (t : Str) (htext : w.text = some t)
    (h : w.type = ("Button").toList ∨ w.type = ("Label").toList) :
    widgetOptions w = [("root").toList, ("text=").toList ++ pyRepr t] := by
  unfold widgetOptions
  rw [htext]
  rcases h with h | h <;> rw [h] <;> rfl

lemma mem_widgetErrors_of_bad_type (rwg : RawWidget) (t : Str) (ht : rwg.type = some t)
    (hts : t ∉ supportedTypes) : unsupportedTypeMsg t ∈ widgetErrors rwg := by
  simp only [widgetErrors, ht]
  rw [if_neg hts]
  simp

/-- C1.  Rendering a text value as a string literal with `repr` (the `!r`
conversion used for the `text=` option of Button/Label and the argument of
the Entry insert statement) and decoding it under Python's string-literal
syntax yields the original text exactly, for every string — including
strings containing quotes, backslashes, newlines, and the empty string. -/
theorem text_literal_roundtrip (s : Str) : decodePyLiteral (pyRepr s) = some s :=
  decode_pyRepr s

/-- C2.  For every widget of a validated layout, the construction
statement's argument list contains the parent reference `root`, and it
contains a `text=` option whose literal decodes to the widget's text
exactly when the widget is a Button or Label with text present; Frame,
Menu and Entry widgets never receive a `text=` constructor argument. -/
theorem construction_args_parent_and_text (w : Widget) (_hw : w.type ∈ supportedTypes) :
    ("root").toList ∈ widgetOptions w ∧
    (widgetLines w).head? = some (w.id ++ (" = tk.").toList ++ w.type ++ ['('] ++
      joinComma (widgetOptions w) ++ [')']) ∧
    ((∃ opt ∈ widgetOptions w, ∃ t lit, w.text = some t ∧ opt = ("text=").toList ++ lit ∧
        decodePyLiteral lit = some t) ↔
      ((w.type = ("Button").toList ∨ w.type = ("Label").toList) ∧ w.text.isSome)) := by
  refine ⟨?_, rfl, ?_⟩
  · cases htext : w.text with
    | none => rw [widgetOptions_no_text w htext]; exact List.mem_cons_self _ _
    | some t =>
      by_cases hb : w.type = ("Button").toList ∨ w.type = ("Label").toList
      · rw [widgetOptions_text w t htext hb]; exact List.mem_cons_self _ _
      · push_neg at hb
        by_cases he : w.type = ("Entry").toList
        · rw [widgetOptions_entry w he]; exact List.mem_cons_self _ _
        · rw [widgetOptions_other w t htext hb.1 hb.2 he]; exact List.mem_cons_self _ _
  · constructor
    · rintro ⟨opt, hopt, t, lit, htext, heq, -⟩
      by_cases hb : w.type = ("Button").toList ∨ w.type = ("Label").toList
      · exact ⟨hb, by rw [htext]; rfl⟩
      · push_neg at hb
        by_cases he : w.type = ("Entry").toList
        · rw [widgetOptions_entry w he] at hopt
          rcases List.mem_singleton.mp hopt with rfl
          exact absurd heq (root_ne_textopt lit)
        · rw [widgetOptions_other w t htext hb.1 hb.2 he] at hopt
          rcases List.mem_singleton.mp hopt with rfl
          exact absurd heq (root_ne_textopt lit)
    · rintro ⟨hb, hsome⟩
      obtain ⟨t, htext⟩ := Option.isSome_iff_exists.mp hsome
      refine ⟨("text=").toList ++ pyRepr t, ?_, t, pyRepr t, htext, rfl, decode_pyRepr t⟩
      rw [widgetOptions_text w t htext hb]
      exact List.mem_cons_of_mem _ (List.mem_cons_self _ _)

theorem construction_args_parent_and_text_witness :
    ("root").toList ∈ widgetOptions wButton ∧
    (widgetLines wButton).head? = some (wButton.id ++ (" = tk.").toList ++ wButton.type ++ ['('] ++
      joinComma (widgetOptions wButton) ++ [')']) ∧
    ((∃ opt ∈ widgetOptions wButton, ∃ t lit, wButton.text = some t ∧
        opt = ("text=").toList ++ lit ∧ decodePyLiteral lit = some t) ↔
      ((wButton.type = ("Button").toList ∨ wButton.type = ("Label").toList) ∧
        wButton.text.isSome)) :=
  construction_args_parent_and_text wButton (by decide)

/-- C3.  For an Entry widget with text present, the constructor call has no
`text=` argument, and the block emitted for the widget is construction,
then the `.insert(0, ...)` statement whose literal decodes to the same
text, then placement; with no text, no insertion statement is emitted. -/
theorem entry_text_inserted_after_construction (w : Widget) (h : w.type = ("Entry").toList) :
    (∀ t, w.text = some t →
      widgetLines w =
        [w.id ++ (" = tk.Entry(root)").toList,
         w.id ++ (".insert(0, ").toList ++ pyRepr t ++ [')'],
         placeLine w, []] ∧
      decodePyLiteral (pyRepr t) = some t ∧
      ¬ ∃ opt ∈ widgetOptions w, ∃ lit, opt = ("text=").toList ++ lit) ∧
    (w.text = none →
      widgetLines w = [w.id ++ (" = tk.Entry(root)").toList, placeLine w, []]) := by
  have hcons : constructionLine w = w.id ++ (" = tk.Entry(root)").toList := by
    unfold constructionLine
    rw [h, widgetOptions_entry w h]
    simp only [List.append_assoc]
    exact congrArg (w.id ++ ·) (by decide)
  constructor
  · intro t ht
    refine ⟨?_, decode_pyRepr t, ?_⟩
    · have hins : insertLines w = [w.id ++ (".insert(0, ").toList ++ pyRepr t ++ [')']] := by
        unfold insertLines; rw [h, ht]; rfl
      unfold widgetLines
      rw [hcons, hins]
      rfl
    · rw [widgetOptions_entry w h]
      rintro ⟨opt, hopt, lit, heq⟩
      rcases List.mem_singleton.mp hopt with rfl
      exact root_ne_textopt lit heq
  · intro ht
    have hins : insertLines w = [] := by
      unfold insertLines; rw [h, ht]; rfl
    unfold widgetLines
    rw [hcons, hins]
    rfl

theorem entry_text_inserted_after_construction_witness :
    widgetLines wEntry =
      [wEntry.id ++ (" = tk.Entry(root)").toList,
       wEntry.id ++ (".insert(0, ").toList ++ pyRepr (("abc").toList) ++ [')'],
       placeLine wEntry, []] ∧
    decodePyLiteral (pyRepr (("abc").toList)) = some (("abc").toList) :=
  ⟨((entry_text_inserted_after_construction wEntry rfl).1 (("abc").toList) rfl).1,
   ((entry_text_inserted_after_construction wEntry rfl).1 (("abc").toList) rfl).2.1⟩

/-- C5.  The placement statement of every widget (the second-to-last line
of its block, before the blank separator) carries exactly the widget's
`x`, `y`, `width`, `height` values, unmodified. -/
theorem placement_args_unmodified (w : Widget) :
    ∃ pre, widgetLines w = pre ++
      [w.id ++ (".place(x=").toList ++ intToStr w.x ++ (", y=").toList ++ intToStr w.y ++
        (", width=").toList ++ intToStr w.width ++ (", height=").toList ++ intToStr w.height ++
        [')'], []] := by
  refine ⟨[constructionLine w] ++ insertLines w, ?_⟩
  simp only [widgetLines, placeLine, List.append_assoc]

/-- C4.  The two geometry values are the true maxima of `x + width` and
`y + height` over the widgets, and they are invariant under permutation of
the widget list. -/
theorem geometry_bounds_are_maxima (ws ws' : List Widget) (hne : ws ≠ [])
    (hperm : ws.Perm ws') :
    (∃ w ∈ ws, max_right ws = w.x + w.width) ∧
    (∀ w ∈ ws, w.x + w.width ≤ max_right ws) ∧
    (∃ w ∈ ws, max_bottom ws = w.y + w.height) ∧
    (∀ w ∈ ws, w.y + w.height ≤ max_bottom ws) ∧
    max_right ws = max_right ws' ∧ max_bottom ws = max_bottom ws' := by
  have hne' : ws' ≠ [] := by
    intro hc; subst hc; exact hne (List.Perm.eq_nil hperm)
  have hE : ws.isEmpty = false := by
    cases ws with
    | nil => exact absurd rfl hne
    | cons a l => rfl
  have hE' : ws'.isEmpty = false := by
    cases ws' with
    | nil => exact absurd rfl hne'
    | cons a l => rfl
  have hmapr : ws.map (fun w => w.x + w.width) ≠ [] := by
    intro hc; exact hne (List.map_eq_nil_iff.mp hc)
  have hmapb : ws.map (fun w => w.y + w.height) ≠ [] := by
    intro hc; exact hne (List.map_eq_nil_iff.mp hc)
  simp only [max_right, max_bottom, hE, hE', Bool.false_eq_true, if_false]
  refine ⟨?_, ?_, ?_, ?_, ?_, ?_⟩
  · obtain ⟨w, hw, heq⟩ := List.mem_map.mp (listMax_mem hmapr)
    exact ⟨w, hw, heq.symm⟩
  · exact fun w hw => le_listMax (List.mem_map_of_mem _ hw)
  · obtain ⟨w, hw, heq⟩ := List.mem_map.mp (listMax_mem hmapb)
    exact ⟨w, hw, heq.symm⟩
  · exact fun w hw => le_listMax (List.mem_map_of_mem _ hw)
  · exact listMax_perm (hperm.map _) hmapr
  · exact listMax_perm (hperm.map _) hmapb

theorem geometry_bounds_are_maxima_witness :
    (∃ w ∈ [wButton, wEntry], max_right [wButton, wEntry] = w.x + w.width) ∧
    (∀ w ∈ [wButton, wEntry], w.x + w.width ≤ max_right [wButton, wEntry]) ∧
    (∃ w ∈ [wButton, wEntry], max_bottom [wButton, wEntry] = w.y + w.height) ∧
    (∀ w ∈ [wButton, wEntry], w.y + w.height ≤ max_bottom [wButton, wEntry]) ∧
    max_right [wButton, wEntry] = max_right [wEntry, wButton] ∧
    max_bottom [wButton, wEntry] = max_bottom [wEntry, wButton] :=
  geometry_bounds_are_maxima [wButton, wEntry] [wEntry, wButton] (by decide)
    (List.Perm.swap wEntry wButton [])

/-- C6.  The empty layout yields exactly the fixed preamble, the geometry
statement with the string `0x0`, a blank line, and the mainloop statement:
the widget-construction region is empty. -/
theorem empty_layout_script :
    emitLines ⟨[]⟩ =
      [("import tkinter as tk").toList, [], ("root = tk.Tk()").toList,
       ("root.title(").toList ++ [squote] ++ ("Generated GUI").toList ++ [squote, ')'],
       ("root.geometry(").toList ++ [squote] ++ ("0x0").toList ++ [squote, ')'],
       [], ("root.mainloop()").toList] := by
  decide

/-- C7.  A raw input containing a widget whose type is outside the five
supported kinds never yields code: the result is a validation error whose
message contains the `Unsupported widget type` message naming the offending
value, and no code string is produced. -/
theorem unsupported_type_fails_validation (rl : RawLayout) (rwg : RawWidget) (t : Str)
    (hmem : rwg ∈ rl.widgets) (ht : rwg.type = some t) (hts : t ∉ supportedTypes) :
    generate_code rl = Except.error (joinLines (layoutErrors rl)) ∧
    ∃ u v, u ++ unsupportedTypeMsg t ++ v = joinLines (layoutErrors rl) := by
  have hv : validateWidget rwg = none := by
    cases hid : rwg.id <;> cases hx : rwg.x <;> cases hy : rwg.y <;>
      cases hw : rwg.width <;> cases hh : rwg.height <;>
      simp [validateWidget, ht, hid, hx, hy, hw, hh, hts]
  constructor
  · simp [generate_code, validateAll_eq_none hmem hv]
  · apply mem_joinLines_infix
    exact List.mem_flatten.mpr
      ⟨widgetErrors rwg, List.mem_map_of_mem _ hmem, mem_widgetErrors_of_bad_type rwg t ht hts⟩

theorem unsupported_type_fails_validation_witness :
    generate_code rlBad = Except.error (joinLines (layoutErrors rlBad)) ∧
    ∃ u v, u ++ unsupportedTypeMsg (("Checkbox").toList) ++ v =
      joinLines (layoutErrors rlBad) :=
  unsupported_type_fails_validation rlBad rwBad (("Checkbox").toList)
    (List.mem_singleton.mpr rfl) rfl (by decide)

/-- C8.  Id uniqueness is not enforced: every raw layout whose widgets all
have their required fields and a supported type compiles to code, with no
duplicate-identifier check (the hypothesis allows — and the witness uses —
several widgets sharing one id). -/
theorem duplicate_ids_not_rejected (rl : RawLayout)
    (h : ∀ rwg ∈ rl.widgets, rwg.id.isSome ∧ rwg.x.isSome ∧ rwg.y.isSome ∧
      rwg.width.isSome ∧ rwg.height.isSome ∧ ∃ t, rwg.type = some t ∧ t ∈ supportedTypes) :
    ∃ code, generate_code rl = Except.ok code := by
  have hall : ∀ rwg ∈ rl.widgets, (validateWidget rwg).isSome := by
    intro rwg hrwg
    obtain ⟨hid, hx, hy, hw, hh, t, ht, hts⟩ := h rwg hrwg
    obtain ⟨i, hi⟩ := Option.isSome_iff_exists.mp hid
    obtain ⟨xv, hxe⟩ := Option.isSome_iff_exists.mp hx
    obtain ⟨yv, hye⟩ := Option.isSome_iff_exists.mp hy
    obtain ⟨wv, hwe⟩ := Option.isSome_iff_exists.mp hw
    obtain ⟨hv, hhe⟩ := Option.isSome_iff_exists.mp hh
    simp [validateWidget, hi, hxe, hye, hwe, hhe, ht, hts]
  obtain ⟨ws, hws⟩ := validateAll_isSome hall
  exact ⟨generate_tkinter_code ⟨ws⟩, by
    simp [generate_code, hws, generate_tkinter_codeE_eq]⟩

theorem duplicate_ids_not_rejected_witness :
    ∃ code, generate_code rlDup = Except.ok code :=
  duplicate_ids_not_rejected rlDup (by decide)

/-- C9.  The emitter is total on validated input: for every layout whose
widgets all carry supported types, the fallible emitter (Python `max`
included) raises nothing and returns the generated script. -/
theorem emitter_total_on_validated_input (layout : Layout)
    (_h : ∀ w ∈ layout.widgets, w.type ∈ supportedTypes) :
    generate_tkinter_codeE layout = Except.ok (generate_tkinter_code layout) :=
  generate_tkinter_codeE_eq layout

theorem emitter_total_on_validated_input_witness :
    generate_tkinter_codeE ⟨[wButton]⟩ = Except.ok (generate_tkinter_code ⟨[wButton]⟩) :=
  emitter_total_on_validated_input ⟨[wButton]⟩ (by decide)

/-- C10.  For every layout the generated script's first line is exactly
the import statement, its last line is exactly the mainloop statement, and
the script does not end with a newline (lines are joined with `\n` with no
trailing separator). -/
theorem script_first_and_last_lines (layout : Layout) :
    firstLine (generate_tkinter_code layout) = ("import tkinter as tk").toList ∧
    lastLine (generate_tkinter_code layout) = ("root.mainloop()").toList ∧
    (generate_tkinter_code layout).getLast? ≠ some '\n' := by
  have hfront : emitLines layout =
      (([("import tkinter as tk").toList, [], ("root = tk.Tk()").toList, titleLine,
         geometryLine (max_right layout.widgets) (max_bottom layout.widgets), []] ++
        (layout.widgets.map widgetLines).flatten) ++ [("root.mainloop()").toList]) := by
    simp [emitLines, scriptLines, List.append_assoc]
  have hjoin : generate_tkinter_code layout =
      joinLines ([("import tkinter as tk").toList, [], ("root = tk.Tk()").toList, titleLine,
          geometryLine (max_right layout.widgets) (max_bottom layout.widgets), []] ++
        (layout.widgets.map widgetLines).flatten) ++
      '\n' :: ("root.mainloop()").toList := by
    rw [generate_tkinter_code, hfront]
    exact joinLines_concat _ _ (by simp)
  refine ⟨?_, ?_, ?_⟩
  · have hji : joinLines ([("import tkinter as tk").toList, [], ("root = tk.Tk()").toList,
        titleLine, geometryLine (max_right layout.widgets) (max_bottom layout.widgets), []] ++
        (layout.widgets.map widgetLines).flatten) =
        ("import tkinter as tk").toList ++ '\n' ::
          joinLines ([[], ("root = tk.Tk()").toList, titleLine,
            geometryLine (max_right layout.widgets) (max_bottom layout.widgets), []] ++
            (layout.widgets.map widgetLines).flatten) := by
      exact joinLines_cons _ _ (by simp)
    rw [firstLine, hjoin, hji, List.append_assoc, List.cons_append]
    exact takeWhile_append_nl _ _ (by decide)
  · rw [lastLine, hjoin]
    have hrev : (joinLines ([("import tkinter as tk").toList, [], ("root = tk.Tk()").toList,
        titleLine, geometryLine (max_right layout.widgets) (max_bottom layout.widgets), []] ++
        (layout.widgets.map widgetLines).flatten) ++
        '\n' :: ("root.mainloop()").toList).reverse =
        ("root.mainloop()").toList.reverse ++ '\n' ::
          (joinLines ([("import tkinter as tk").toList, [], ("root = tk.Tk()").toList,
            titleLine, geometryLine (max_right layout.widgets) (max_bottom layout.widgets), []] ++
            (layout.widgets.map widgetLines).flatten)).reverse := by
      simp
    rw [hrev, takeWhile_append_nl _ _ (by decide), List.reverse_reverse]
  · rw [hjoin, List.getLast?_append_cons]
    decide
